import Mathlib

/-
Verification of the tuya-strip command-line utility (src/tuya_strip/cli.py).

The development shallowly embeds the program: the filesystem, the process
environment and the external device library are passed in explicitly, prints
and sleeps are collected in result values, and `sys.exit(1)` paths are
distinguished constructors of the result types.
-/

/-- A Python value appearing in a device `dps` payload. -/
inductive PyVal where
  | pynone
  | pybool (b : Bool)
  | pyint (n : Int)
  | pystr (s : String)
deriving DecidableEq

/-- A structured response returned by the device library: the keys of the
response dictionary that `cli.py` inspects (`Error`, `Err`, `dps`). -/
structure Response where
  Error : Option String
  Err : Option String
  dps : Option (String → Option PyVal)

/-- Outcome of one call into the external device library: a structured
response, or a raised `socket.timeout` / `ConnectionRefusedError`. -/
inductive DeviceCall (α : Type) where
  | ok (a : α)
  | timeout
  | connRefused

/-- The external device handle: `status()` and `set_status(on, plug)`. -/
structure DeviceD where
  status : DeviceCall Response
  set_status : Bool → Int → DeviceCall Response

/-- What an attempt of a wrapped action produces, as seen by the
`try/except` clauses of `run_with_retry`: a returned value, or one of the
three exception classes it catches. -/
inductive AttemptResult (V : Type) where
  | ok (v : V)
  | timeout
  | connRefused
  | other (msg : String)

def AttemptResult.mapOk (f : α → β) : AttemptResult α → AttemptResult β
  | .ok v => .ok (f v)
  | .timeout => .timeout
  | .connRefused => .connRefused
  | .other m => .other m

def timeoutMsg : String := "Device connection timed out - device may be unreachable"

def connRefusedMsg : String := "Connection refused - device may be offline or wrong IP address"

/-- The message bound to `last_error` for a failing attempt
(`None` for a successful one). -/
def failMsg : AttemptResult V → Option String
  | .ok _ => Option.none
  | .timeout => some timeoutMsg
  | .connRefused => some connRefusedMsg
  | .other m => some m

def msgStr (a : AttemptResult V) : String := (failMsg a).getD ""

/-- Python prints `None` for an absent last error. -/
def pyOptStr : Option String → String
  | Option.none => "None"
  | some s => s

def attemptFailPrint (attempt : Nat) (msg : String) : String :=
  s!"Attempt {attempt} failed: " ++ msg

def summaryPrint (retries : Int) (lastError : Option String) : String :=
  s!"All {retries} attempts failed. Last error: " ++ pyOptStr lastError

/-- Observable side effects accumulated by `run_with_retry`: the lines
printed, the arguments of the `time.sleep` calls, and how many times the
wrapped action was invoked. -/
structure RunState where
  prints : List String
  sleeps : List Int
  calls : Nat

/-- Result of `run_with_retry`: the wrapped action's value, or `sys.exit(1)`
after exhausting the attempts, carrying the final `last_error`. -/
inductive RunOutcome (V : Type) where
  | success (v : V) (st : RunState)
  | exit1 (st : RunState) (lastError : Option String)

/-- The `for attempt in range(1, retries + 1)` loop of `run_with_retry`.
`remaining` counts the loop iterations still to run; at every call from
`run_with_retry` the invariant `attempt + remaining = retries.toNat + 1`
holds, under which the source's sleep guard `attempt < retries` is exactly
`0 < remaining - 1`.
The three `except` clauses of the source differ only in the message they
bind to `last_error` and print; that message is `msgStr`/`failMsg` of the
attempt's outcome, so they are rendered as one branch here. -/
def runLoop (action : Nat → AttemptResult V) (retries delay : Int) :
    Nat → Nat → Option String → RunState → RunOutcome V
  | _attempt, 0, le, st =>
    .exit1 { st with prints := st.prints ++ [summaryPrint retries le] } le
  | attempt, r + 1, le, st =>
    let st1 : RunState := { st with calls := st.calls + 1 }
    match action attempt with
    | .ok v => .success v st1
    | a =>
      let m := msgStr a
      let st2 := { st1 with prints := st1.prints ++ [attemptFailPrint attempt m] }
      let st3 := if 0 < r then { st2 with sleeps := st2.sleeps ++ [delay] } else st2
      runLoop action retries delay (attempt + 1) r (some m) st3

/-- `run_with_retry(action, retries, delay)`.  The `action` argument is
indexed by the attempt number so that an injected device behaviour may vary
across attempts. -/
def run_with_retry (action : Nat → AttemptResult V) (retries delay : Int) : RunOutcome V :=
  runLoop action retries delay 1 retries.toNat Option.none ⟨[], [], 0⟩

/-- The per-attempt failure lines printed by a run whose every attempt
fails, starting at attempt number `attempt`. -/
def failPrints (action : Nat → AttemptResult V) : Nat → Nat → List String
  | _attempt, 0 => []
  | attempt, r + 1 =>
    attemptFailPrint attempt (msgStr (action attempt)) :: failPrints action (attempt + 1) r

theorem lastOfConcat (l : List α) (a : α) : (l ++ [a]).getLast? = some a := by
  induction l with
  | nil => rfl
  | cons x xs ih =>
    rw [List.cons_append, List.getLast?_cons]
    simp [ih]

theorem runLoop_zero (action : Nat → AttemptResult V) (retries delay : Int)
    (attempt : Nat) (le : Option String) (st : RunState) :
    runLoop action retries delay attempt 0 le st =
      RunOutcome.exit1 { st with prints := st.prints ++ [summaryPrint retries le] } le := rfl

/-- One failing iteration of the retry loop: print the failure line, sleep
when further attempts remain, record the message as `last_error`, continue. -/
theorem runLoop_fail_step (action : Nat → AttemptResult V) (retries delay : Int)
    (attempt r : Nat) (le : Option String) (st : RunState)
    (h : (failMsg (action attempt)).isSome) :
    runLoop action retries delay attempt (r + 1) le st =
      runLoop action retries delay (attempt + 1) r (some (msgStr (action attempt)))
        ⟨st.prints ++ [attemptFailPrint attempt (msgStr (action attempt))],
          st.sleeps ++ (if 0 < r then [delay] else []), st.calls + 1⟩ := by
  rcases hx : action attempt with v | _ | _ | m
  · rw [hx] at h; simp [failMsg] at h
  all_goals
    simp only [runLoop, hx, msgStr, failMsg, Option.getD]
    by_cases hr : 0 < r <;> simp [hr]

/-- Characterisation of `runLoop` when every attempt fails: it exhausts the
remaining attempts, prints one failure line per attempt followed by the
terminal summary, sleeps the fixed delay between consecutive attempts (so
one fewer time than it attempts), and exits with status 1 carrying the last
attempt's error message. -/
theorem runLoop_allFail (action : Nat → AttemptResult V) (retries delay : Int)
    (hfail : ∀ i, (failMsg (action i)).isSome) :
    ∀ (r attempt : Nat) (le : Option String) (st : RunState),
      runLoop action retries delay attempt (r + 1) le st =
        RunOutcome.exit1
          ⟨st.prints ++ failPrints action attempt (r + 1) ++
              [summaryPrint retries (failMsg (action (attempt + r)))],
            st.sleeps ++ List.replicate r delay, st.calls + (r + 1)⟩
          (failMsg (action (attempt + r))) := by
  intro r
  induction r with
  | zero =>
    intro attempt le st
    rw [runLoop_fail_step action retries delay attempt 0 le st (hfail attempt),
      runLoop_zero]
    have hm : some (msgStr (action attempt)) = failMsg (action attempt) := by
      have h := hfail attempt
      rcases hx : action attempt with v | _ | _ | m
      · rw [hx] at h; simp [failMsg] at h
      all_goals simp [msgStr, failMsg, hx]
    simp [failPrints, hm, List.append_assoc]
  | succ r ih =>
    intro attempt le st
    rw [runLoop_fail_step action retries delay attempt (r + 1) le st (hfail attempt),
      ih]
    have hidx : attempt + 1 + r = attempt + (r + 1) := by omega
    rw [hidx]
    simp [failPrints, List.append_assoc, List.replicate_succ, Nat.succ_pos,
      Nat.add_assoc, Nat.add_comm, Nat.add_left_comm]

/-
Configuration loading (`load_config`).

The process environment is a partial map from variable names to values; a
configuration file is a sequence of KEY=value pairs.  `python-dotenv`'s
`load_dotenv` is modelled per its documented default `override=False`: a
key from the file is placed into the environment only when the variable is
not already set.
-/

abbrev Env := String → Option String

abbrev EnvFile := List (String × String)

/-- The key/value mapping a dotenv file denotes (later lines override
earlier ones, as in the parser's dictionary). -/
def fileEnv (file : EnvFile) : Env :=
  file.foldl (fun acc kv k => if k = kv.1 then some kv.2 else acc k) (fun _ => Option.none)

/-- `load_dotenv(path)` with the default `override=False`: existing
environment variables win over the file's values. -/
def load_dotenv_file (file : EnvFile) (env : Env) : Env :=
  fun k =>
    match env k with
    | some v => some v
    | Option.none => fileEnv file k

/-- Bare `load_dotenv()`: loads a `.env` file from the current directory
when one exists, else leaves the environment unchanged. -/
def load_dotenv_default (cwdDotenv : Option EnvFile) (env : Env) : Env :=
  match cwdDotenv with
  | some f => load_dotenv_file f env
  | Option.none => env

/-- The filesystem locations `cli.py` can read configuration from:
a `.env` in the current directory (bare `load_dotenv()` fallback),
`Path.home() / ".tuya-strip"`, and `/etc/tuya-strip/config`. -/
structure FS where
  cwdDotenv : Option EnvFile
  homeConfig : Option EnvFile
  etcConfig : Option EnvFile

def homeConfigPath (home : String) : String := home ++ "/.tuya-strip"

def etcConfigPath : String := "/etc/tuya-strip/config"

/-- A parsed Python `float(...)` value, kept in its parsed components
(sign, concatenated integer-and-fraction digits, number of fraction
digits, exponent); nothing downstream inspects the numeric value, it is
only handed to `set_version`. -/
inductive PyFloat where
  | finite (neg : Bool) (intFrac : Nat) (fracLen : Nat) (exp : Int)
  | infty (neg : Bool)
  | nan (neg : Bool)
deriving DecidableEq

/-- A character stripped by Python's `str.strip()`. -/
def isSpaceChar (c : Char) : Bool :=
  c = ' ' || c = '\t' || c = '\n' || c = '\r' || c = '\x0b' || c = '\x0c'

/-- `str.strip()` on the underlying character list. -/
def trimChars (cs : List Char) : List Char :=
  ((cs.dropWhile isSpaceChar).reverse.dropWhile isSpaceChar).reverse

/-- `str.strip()`. -/
def pyStrip (s : String) : String := String.mk (trimChars s.data)

/-- Underscore-separated digit run, as accepted inside Python float
literals: nonempty, starts and ends with a digit, single underscores only
between digits.  The Boolean argument records whether the previous
character was a digit. -/
def digitRunAux : List Char → Bool → Bool
  | [], prevDigit => prevDigit
  | c :: cs, prevDigit =>
    if c.isDigit then digitRunAux cs true
    else if c = '_' then prevDigit && digitRunAux cs false
    else false

def validDigitRun (cs : List Char) : Bool := digitRunAux cs false

def natOfRun (cs : List Char) : Nat :=
  cs.foldl (fun n c => if c.isDigit then n * 10 + (c.toNat - 48) else n) 0

def digitCount (cs : List Char) : Nat := (cs.filter Char.isDigit).length

/-- Split a character list at the first character satisfying `p`,
dropping it; `Option.none` when no such character occurs. -/
def splitFirst (p : Char → Bool) : List Char → List Char × Option (List Char)
  | [] => ([], Option.none)
  | c :: cs =>
    if p c then ([], some cs)
    else
      let r := splitFirst p cs
      (c :: r.1, r.2)

def parseSign : List Char → Bool × List Char
  | '+' :: cs => (false, cs)
  | '-' :: cs => (true, cs)
  | cs => (false, cs)

/-- Python's `float(str)` conversion: surrounding whitespace stripped,
optional sign, then either `inf`/`infinity`/`nan` (case-insensitive) or a
decimal literal `digits[.digits][e[+-]digits]` with at least one mantissa
digit.  `Option.none` models the raised `ValueError`. -/
def pyFloatOfString (s : String) : Option PyFloat :=
  let cs := trimChars s.data
  let (neg, body) := parseSign cs
  let lower := body.map Char.toLower
  if lower = "inf".data ∨ lower = "infinity".data then some (PyFloat.infty neg)
  else if lower = "nan".data then some (PyFloat.nan neg)
  else
    let (mant, expPart) := splitFirst (fun c => c = 'e' ∨ c = 'E') body
    let (ip, fpOpt) := splitFirst (fun c => c = '.') mant
    let fp := fpOpt.getD []
    let ipOk := ip.isEmpty || validDigitRun ip
    let fpOk := fp.isEmpty || validDigitRun fp
    let hasDigit := !ip.isEmpty || !fp.isEmpty
    let expVal : Option Int :=
      match expPart with
      | Option.none => some 0
      | some ecs =>
        let (eneg, ds) := parseSign ecs
        if validDigitRun ds then
          some (if eneg then -(natOfRun ds : Int) else (natOfRun ds : Int))
        else Option.none
    if ipOk && fpOk && hasDigit then
      match expVal with
      | some e =>
        some (PyFloat.finite neg (natOfRun ip * 10 ^ digitCount fp + natOfRun fp)
          (digitCount fp) e)
      | Option.none => Option.none
    else Option.none

/-- The `ValueError` message raised by `float()`. -/
def floatErrorMsg (s : String) : String :=
  "could not convert string to float: " ++ s

/-- The four typed fields `load_config` returns. -/
structure Config where
  DEVICE_ID : Option String
  DEVICE_IP : Option String
  LOCAL_KEY : Option String
  VERSION : PyFloat
deriving DecidableEq

/-- Result of `load_config`: the lines printed, the process environment
after the `load_dotenv` side effect, and the returned record — or the
uncaught `ValueError` from `float(os.getenv("TUYA_VERSION", "3.3"))`. -/
structure LoadResult where
  prints : List String
  envAfter : Env
  config : Except String Config

/-- The environment after `load_config`'s file search: the first existing
file among `~/.tuya-strip` and `/etc/tuya-strip/config` is loaded (the
`for`/`break` loop), else the bare `load_dotenv()` fallback runs. -/
def configEnv (fs : FS) (env : Env) : Env :=
  match fs.homeConfig with
  | some f => load_dotenv_file f env
  | Option.none =>
    match fs.etcConfig with
    | some f => load_dotenv_file f env
    | Option.none => load_dotenv_default fs.cwdDotenv env

/-- The `Loading config from: ...` line printed by the search loop. -/
def configPrints (home : String) (fs : FS) : List String :=
  match fs.homeConfig with
  | some _ => ["Loading config from: " ++ homeConfigPath home]
  | Option.none =>
    match fs.etcConfig with
    | some _ => ["Loading config from: " ++ etcConfigPath]
    | Option.none => []

/-- `load_config()`. -/
def load_config (home : String) (fs : FS) (env : Env) : LoadResult :=
  let env2 := configEnv fs env
  let verStr := (env2 "TUYA_VERSION").getD "3.3"
  match pyFloatOfString verStr with
  | Option.none => ⟨configPrints home fs, env2, Except.error (floatErrorMsg verStr)⟩
  | some v =>
    ⟨configPrints home fs, env2,
      Except.ok ⟨env2 "TUYA_DEVICE_ID", env2 "TUYA_DEVICE_IP", env2 "TUYA_LOCAL_KEY", v⟩⟩

/-- Modelled from the spec's words for claim C1 (not from the source):
the configuration file is searched current-directory first, then user
home, then the system-wide path, and the loaded file's values take
precedence over ambient environment variables, which serve only as the
final fallback. -/
def load_config_claimed (home : String) (fs : FS) (env : Env) : LoadResult :=
  let fileFirst : EnvFile → Env := fun f k =>
    match fileEnv f k with
    | some v => some v
    | Option.none => env k
  let (prints, env2) : List String × Env :=
    match fs.cwdDotenv with
    | some f => (["Loading config from: .env"], fileFirst f)
    | Option.none =>
      match fs.homeConfig with
      | some f => (["Loading config from: " ++ homeConfigPath home], fileFirst f)
      | Option.none =>
        match fs.etcConfig with
        | some f => (["Loading config from: " ++ etcConfigPath], fileFirst f)
        | Option.none => ([], env)
  let verStr := (env2 "TUYA_VERSION").getD "3.3"
  match pyFloatOfString verStr with
  | Option.none => ⟨prints, env2, Except.error (floatErrorMsg verStr)⟩
  | some v =>
    ⟨prints, env2,
      Except.ok ⟨env2 "TUYA_DEVICE_ID", env2 "TUYA_DEVICE_IP", env2 "TUYA_LOCAL_KEY", v⟩⟩

/-
Device operations (`do_status`, `do_on`, `do_off`) and interactive setup.
-/

/-- `f"Device error: {...} (Code: {...})"` with `data.get('Err', 'Unknown')`. -/
def deviceErrorMsg (e : String) (code : Option String) : String :=
  "Device error: " ++ e ++ " (Code: " ++ code.getD "Unknown" ++ ")"

/-- The energy telemetry dictionary printed by `do_status`. -/
structure Energy where
  voltage_V : Option PyVal
  current_mA : Option PyVal
  power_W : Option PyVal

/-- `do_status(d)`: one `d.status()` call; a response with an `Error` key
raises the generic device-error exception (surfacing as `.other` in the
retry wrapper); otherwise the printed switch dictionary (the comprehension
over dps keys "1","2","3") and energy dictionary are produced. -/
def do_status (d : DeviceD) : AttemptResult ((String → Option PyVal) × Energy) :=
  match d.status with
  | DeviceCall.timeout => AttemptResult.timeout
  | DeviceCall.connRefused => AttemptResult.connRefused
  | DeviceCall.ok data =>
    match data.Error with
    | some e => AttemptResult.other (deviceErrorMsg e data.Err)
    | Option.none =>
      let dps : String → Option PyVal :=
        match data.dps with
        | some f => f
        | Option.none => fun _ => Option.none
      AttemptResult.ok
        (fun k => if k = "1" ∨ k = "2" ∨ k = "3" then dps k else Option.none,
          ⟨dps "20", dps "18", dps "19"⟩)

def plugOnMsg (num : Int) : String := s!"Plug {num} turned ON"

def plugOffMsg (num : Int) : String := s!"Plug {num} turned OFF"

/-- `do_on(d, num)`: one `d.set_status(True, num)` call, a device-error
check, and the confirmation line. -/
def do_on (d : DeviceD) (num : Int) : AttemptResult String :=
  match d.set_status true num with
  | DeviceCall.timeout => AttemptResult.timeout
  | DeviceCall.connRefused => AttemptResult.connRefused
  | DeviceCall.ok result =>
    match result.Error with
    | some e => AttemptResult.other (deviceErrorMsg e result.Err)
    | Option.none => AttemptResult.ok (plugOnMsg num)

/-- `do_off(d, num)`: one `d.set_status(False, num)` call, a device-error
check, and the confirmation line. -/
def do_off (d : DeviceD) (num : Int) : AttemptResult String :=
  match d.set_status false num with
  | DeviceCall.timeout => AttemptResult.timeout
  | DeviceCall.connRefused => AttemptResult.connRefused
  | DeviceCall.ok result =>
    match result.Error with
    | some e => AttemptResult.other (deviceErrorMsg e result.Err)
    | Option.none => AttemptResult.ok (plugOffMsg num)

/-
Interactive setup (`setup_config`, `_suggest_sudo_command`,
`_handle_permission_error`).  Filesystem permissions and the interactive
inputs are passed in; the `input(...)` prompt strings are not modelled.
-/

structure SetupCtx where
  deviceIdInput : String
  deviceIpInput : String
  localKeyInput : String
  versionInput : String
  argvTail : List String
  whichResult : Option String
  canMkdirEtc : Bool
  canWriteEtc : Bool
  canWriteHome : Bool
  home : String

/-- Outcome of `setup_config`: the file fully written (path and complete
content), or `sys.exit(1)` with nothing written. -/
inductive SetupResult where
  | written (path : String) (content : String) (prints : List String)
  | exit1 (prints : List String)

def setupHeaderPrints : List String :=
  ["Tuya Device Setup", "================",
    "Please enter your Tuya device credentials:", ""]

/-- The `f"""..."""` template written to the configuration file. -/
def configContent (id ip key ver : String) : String :=
  "# Tuya device configuration\nTUYA_DEVICE_ID=" ++ id ++
    "\nTUYA_DEVICE_IP=" ++ ip ++ "\nTUYA_LOCAL_KEY=" ++ key ++
    "\nTUYA_VERSION=" ++ ver ++ "\n"

/-- The lines printed by `_suggest_sudo_command()`. -/
def suggest_sudo_prints (argvTail : List String) (which : Option String) : List String :=
  ["Try running with sudo:",
    "  sudo tuya-strip " ++ String.intercalate " " argvTail,
    "\nIf \x27sudo: tuya-strip: command not found\x27, create a system symlink:",
    "  sudo ln -sf " ++ which.getD "/usr/local/bin/tuya-strip" ++ " /usr/local/bin/tuya-strip"]

def permDirMsg : String :=
  "\nError: Permission denied creating directory /etc/tuya-strip"

def sysWideMsg : String :=
  "System-wide configuration requires elevated privileges."

/-- The first line of `_handle_permission_error`. -/
def permWriteMsg (p : String) : String :=
  "\nError: Permission denied writing to " ++ p

def savedOkPrints (p : String) : List String :=
  ["\nConfiguration saved to: " ++ p, "You can now use the tuya-strip commands!"]

/-- `setup_config(system_wide)`.  `canMkdirEtc` models whether
`config_path.parent.mkdir(parents=True, exist_ok=True)` succeeds, and
`canWriteEtc`/`canWriteHome` whether `config_path.write_text` succeeds;
both raise `PermissionError` otherwise, before any content reaches disk
(a denied `open` never truncates the target). -/
def setup_config (sc : SetupCtx) (system_wide : Bool) : SetupResult :=
  let ver := if pyStrip sc.versionInput = "" then "3.3" else pyStrip sc.versionInput
  let content :=
    configContent (pyStrip sc.deviceIdInput) (pyStrip sc.deviceIpInput)
      (pyStrip sc.localKeyInput) ver
  if system_wide then
    if sc.canMkdirEtc = false then
      SetupResult.exit1 (setupHeaderPrints ++ [permDirMsg, sysWideMsg] ++
        suggest_sudo_prints sc.argvTail sc.whichResult)
    else if sc.canWriteEtc = false then
      SetupResult.exit1 (setupHeaderPrints ++ [permWriteMsg etcConfigPath] ++
        suggest_sudo_prints sc.argvTail sc.whichResult)
    else
      SetupResult.written etcConfigPath content
        (setupHeaderPrints ++ savedOkPrints etcConfigPath)
  else
    if sc.canWriteHome = false then
      SetupResult.exit1 (setupHeaderPrints ++ [permWriteMsg (homeConfigPath sc.home)])
    else
      SetupResult.written (homeConfigPath sc.home) content
        (setupHeaderPrints ++ savedOkPrints (homeConfigPath sc.home))

/-
`main()` after argument parsing.
-/

inductive Command where
  | setup (system_wide : Bool)
  | on (plug : Int)
  | off (plug : Int)
  | status

/-- The parsed command line: `--timeout`, `--retries` (both `type=int`,
so any integer is accepted; the `plug` positional of `on`/`off` likewise
carries an arbitrary integer, argparse imposing no range), and the chosen
subcommand. -/
structure Args where
  timeout : Int
  retries : Int
  command : Option Command

/-- The `tinytuya.OutletDevice(...)` constructor arguments together with
the `set_version` argument. -/
structure DeviceInit where
  device_id : Option String
  device_ip : Option String
  local_key : Option String
  connection_timeout : Int
  version : PyFloat

inductive CommandOutput where
  | statusOut (switches : String → Option PyVal) (energy : Energy)
  | message (s : String)

/-- How `main` can end, observable effects included. -/
inductive MainResult where
  | setupRun (r : SetupResult)
  | uncaughtValueError (msg : String)
  | missingCreds (prints : List String)
  | deviceRun (init : DeviceInit) (out : RunOutcome CommandOutput)
  | helpExit (init : DeviceInit)

def missingCredsMsg : String :=
  "Missing credentials. Please run \x27tuya-strip setup\x27 to configure your device."

/-- Python truthiness of an `os.getenv` result: `None` and `""` are falsy. -/
def pyTruthy : Option String → Bool
  | Option.none => false
  | some s => !s.isEmpty

/-- `all([DEVICE_ID, DEVICE_IP, LOCAL_KEY])`. -/
def credsPresent (c : Config) : Bool :=
  pyTruthy c.DEVICE_ID && pyTruthy c.DEVICE_IP && pyTruthy c.LOCAL_KEY

/-- `main()` after `parser.parse_args()` (named `cli_main` since Lean reserves `main`): dispatch `setup`, else load the
configuration, refuse on missing credentials, construct the device handle
and run the requested operation under `run_with_retry` (the `delay`
argument keeps its default 1).  The external device is injected per
attempt number.  The final `else` of the source's dispatch chain prints
help and exits 1. -/
def cli_main (args : Args) (home : String) (fs : FS) (env : Env)
    (dev : Nat → DeviceD) (sc : SetupCtx) : MainResult :=
  match args.command with
  | some (Command.setup sw) => MainResult.setupRun (setup_config sc sw)
  | cmd =>
    let lr := load_config home fs env
    match lr.config with
    | Except.error m => MainResult.uncaughtValueError m
    | Except.ok cfg =>
      if credsPresent cfg then
        let init : DeviceInit :=
          ⟨cfg.DEVICE_ID, cfg.DEVICE_IP, cfg.LOCAL_KEY, args.timeout, cfg.VERSION⟩
        match cmd with
        | some (Command.on n) =>
          MainResult.deviceRun init
            (run_with_retry (fun i => (do_on (dev i) n).mapOk CommandOutput.message)
              args.retries 1)
        | some (Command.off n) =>
          MainResult.deviceRun init
            (run_with_retry (fun i => (do_off (dev i) n).mapOk CommandOutput.message)
              args.retries 1)
        | some Command.status =>
          MainResult.deviceRun init
            (run_with_retry
              (fun i => (do_status (dev i)).mapOk (fun p => CommandOutput.statusOut p.1 p.2))
              args.retries 1)
        | _ => MainResult.helpExit init
      else MainResult.missingCreds (lr.prints ++ [missingCredsMsg])

/-
Claim theorems.
-/

/-- Claim C3: for every configured retry count N >= 1, if the wrapped
action fails on all N attempts with failures the wrapper catches, then
`run_with_retry` sleeps exactly N-1 times, each time the fixed delay
(none after the last attempt), prints the terminal summary with the last
error as its final line, and exits the process with status 1. -/
theorem run_with_retry_exhaustion {V : Type} (action : Nat → AttemptResult V)
    (retries delay : Int) (hN : 1 ≤ retries)
    (hfail : ∀ i, (failMsg (action i)).isSome) :
    ∃ st : RunState,
      run_with_retry action retries delay =
        RunOutcome.exit1 st (failMsg (action retries.toNat)) ∧
      st.sleeps = List.replicate (retries.toNat - 1) delay ∧
      st.calls = retries.toNat ∧
      st.prints.getLast? =
        some (summaryPrint retries (failMsg (action retries.toNat))) := by
  obtain ⟨n, hn⟩ : ∃ n, retries.toNat = n + 1 := ⟨retries.toNat - 1, by omega⟩
  have hidx : 1 + n = n + 1 := by omega
  rw [run_with_retry, hn, runLoop_allFail action retries delay hfail, hidx]
  refine ⟨_, rfl, ?_, ?_, ?_⟩
  · simp
  · simp
  · exact lastOfConcat _ _

/-- Witness for C3 at retries = 2 and an action that always times out. -/
theorem run_with_retry_exhaustion_witness :
    (1 : Int) ≤ 2 ∧
    (∀ i : Nat, (failMsg ((fun _ : Nat => (AttemptResult.timeout : AttemptResult Unit)) i)).isSome) ∧
    ∃ st : RunState,
      run_with_retry (fun _ : Nat => (AttemptResult.timeout : AttemptResult Unit)) 2 1 =
        RunOutcome.exit1 st (some timeoutMsg) ∧
      st.sleeps = [1] ∧ st.calls = 2 ∧
      st.prints.getLast? = some (summaryPrint 2 (some timeoutMsg)) := by
  refine ⟨by decide, fun i => rfl, ?_⟩
  have h := run_with_retry_exhaustion (fun _ : Nat => (AttemptResult.timeout : AttemptResult Unit))
    2 1 (by decide) (fun i => rfl)
  simpa [failMsg] using h

/-- Claim C10: for every retry count <= 0 (the `--retries` flag is a bare
`int`), `run_with_retry` never invokes the wrapped action (zero calls),
never sleeps, prints the terminal summary with last error `None`, and
exits the process with status 1. -/
theorem run_with_retry_nonpositive {V : Type} (action : Nat → AttemptResult V)
    (retries delay : Int) (h : retries ≤ 0) :
    run_with_retry action retries delay =
      RunOutcome.exit1 ⟨[summaryPrint retries Option.none], [], 0⟩ Option.none := by
  have h0 : retries.toNat = 0 := Int.toNat_of_nonpos h
  rw [run_with_retry, h0, runLoop_zero]
  rfl

/-- Witness for C10 at retries = -2. -/
theorem run_with_retry_nonpositive_witness :
    (-2 : Int) ≤ 0 ∧
    run_with_retry (fun _ : Nat => (AttemptResult.ok () : AttemptResult Unit)) (-2) 1 =
      RunOutcome.exit1 ⟨[summaryPrint (-2) Option.none], [], 0⟩ Option.none :=
  ⟨by decide,
    run_with_retry_nonpositive (fun _ : Nat => (AttemptResult.ok () : AttemptResult Unit))
      (-2) 1 (by decide)⟩

/-- Claim C7: a status response with an embedded `Error` field makes the
operation raise the generic device failure carrying the device's message
and code; the retry wrapper catches it in the generic branch, printing the
raw message verbatim in the attempt line, and retries it under the same
uniform fixed-delay policy as a transport failure (same sleep sequence,
same number of attempts, same exit). -/
theorem device_error_retried_as_other (data : Response) (e : String)
    (sset : Bool → Int → DeviceCall Response) (retries delay : Int)
    (hErr : data.Error = some e) (hN : 1 ≤ retries) :
    do_status ⟨DeviceCall.ok data, sset⟩ =
      AttemptResult.other (deviceErrorMsg e data.Err) ∧
    ∃ st st' : RunState,
      run_with_retry
          (fun _ => (AttemptResult.other (deviceErrorMsg e data.Err) :
            AttemptResult ((String → Option PyVal) × Energy))) retries delay =
        RunOutcome.exit1 st (some (deviceErrorMsg e data.Err)) ∧
      st.prints.head? = some (attemptFailPrint 1 (deviceErrorMsg e data.Err)) ∧
      run_with_retry
          (fun _ => (AttemptResult.timeout :
            AttemptResult ((String → Option PyVal) × Energy))) retries delay =
        RunOutcome.exit1 st' (some timeoutMsg) ∧
      st.sleeps = st'.sleeps ∧ st.calls = st'.calls := by
  constructor
  · simp [do_status, hErr]
  · obtain ⟨n, hn⟩ : ∃ n, retries.toNat = n + 1 := ⟨retries.toNat - 1, by omega⟩
    have h1 := runLoop_allFail
      (fun _ => (AttemptResult.other (deviceErrorMsg e data.Err) :
        AttemptResult ((String → Option PyVal) × Energy)))
      retries delay (fun i => rfl) n 1 Option.none ⟨[], [], 0⟩
    have h2 := runLoop_allFail
      (fun _ => (AttemptResult.timeout :
        AttemptResult ((String → Option PyVal) × Energy)))
      retries delay (fun i => rfl) n 1 Option.none ⟨[], [], 0⟩
    rw [run_with_retry, run_with_retry, hn, h1, h2]
    refine ⟨_, _, rfl, ?_, rfl, rfl, rfl⟩
    simp [failPrints, msgStr, failMsg]

/-- Witness for C7 at a concrete error response and retries = 2. -/
theorem device_error_retried_as_other_witness :
    (Response.mk (some "boom") (some "901") Option.none).Error = some "boom" ∧
    (1 : Int) ≤ 2 ∧
    (do_status ⟨DeviceCall.ok (Response.mk (some "boom") (some "901") Option.none),
        fun _ _ => DeviceCall.timeout⟩ =
      AttemptResult.other
        (deviceErrorMsg "boom" (Response.mk (some "boom") (some "901") Option.none).Err) ∧
    ∃ st st' : RunState,
      run_with_retry
          (fun _ => (AttemptResult.other
            (deviceErrorMsg "boom" (Response.mk (some "boom") (some "901") Option.none).Err) :
            AttemptResult ((String → Option PyVal) × Energy))) 2 1 =
        RunOutcome.exit1 st
          (some (deviceErrorMsg "boom"
            (Response.mk (some "boom") (some "901") Option.none).Err)) ∧
      st.prints.head? = some (attemptFailPrint 1
        (deviceErrorMsg "boom" (Response.mk (some "boom") (some "901") Option.none).Err)) ∧
      run_with_retry
          (fun _ => (AttemptResult.timeout :
            AttemptResult ((String → Option PyVal) × Energy))) 2 1 =
        RunOutcome.exit1 st' (some timeoutMsg) ∧
      st.sleeps = st'.sleeps ∧ st.calls = st'.calls) :=
  ⟨rfl, by decide,
    device_error_retried_as_other (Response.mk (some "boom") (some "901") Option.none)
      "boom" (fun _ _ => DeviceCall.timeout) 2 1 rfl (by decide)⟩

theorem load_config_envAfter (home : String) (fs : FS) (env : Env) :
    (load_config home fs env).envAfter = configEnv fs env := by
  unfold load_config
  cases hm : pyFloatOfString ((configEnv fs env "TUYA_VERSION").getD "3.3") <;> simp [hm]

theorem load_config_prints_eq (home : String) (fs : FS) (env : Env) :
    (load_config home fs env).prints = configPrints home fs := by
  unfold load_config
  cases hm : pyFloatOfString ((configEnv fs env "TUYA_VERSION").getD "3.3") <;> simp [hm]

/-- Ambient environment variables survive the load untouched
(`override=False`): any variable already set keeps its value. -/
theorem configEnv_preserve (fs : FS) (env : Env) (k v : String)
    (h : env k = some v) : configEnv fs env k = some v := by
  rcases fs with ⟨c, ho, et⟩
  cases ho <;> cases et <;> cases c <;>
    simp [configEnv, load_dotenv_file, load_dotenv_default, h]

/-- Claim C1 (amended): `load_config` searches the user-home file first,
then the system-wide path; the first existing file in that order is the
one loaded and lower-priority locations are not consulted; only when
neither exists does the bare `load_dotenv()` fallback read a
current-directory `.env`; and ambient environment variables always take
precedence over file-provided values, files acting as the fallback. -/
theorem load_config_search_order (home : String) (fs : FS) (env : Env) :
    (∀ f, fs.homeConfig = some f →
      (load_config home fs env).prints =
        ["Loading config from: " ++ homeConfigPath home] ∧
      (load_config home fs env).envAfter = load_dotenv_file f env ∧
      ∀ c e, load_config home ⟨c, some f, e⟩ env = load_config home fs env) ∧
    (fs.homeConfig = Option.none → ∀ f, fs.etcConfig = some f →
      (load_config home fs env).prints = ["Loading config from: " ++ etcConfigPath] ∧
      (load_config home fs env).envAfter = load_dotenv_file f env ∧
      ∀ c, load_config home ⟨c, Option.none, some f⟩ env = load_config home fs env) ∧
    (fs.homeConfig = Option.none → fs.etcConfig = Option.none →
      (load_config home fs env).prints = [] ∧
      (load_config home fs env).envAfter = load_dotenv_default fs.cwdDotenv env) ∧
    (∀ k v, env k = some v → (load_config home fs env).envAfter k = some v) := by
  refine ⟨?_, ?_, ?_, ?_⟩
  · intro f hh
    refine ⟨?_, ?_, ?_⟩
    · rw [load_config_prints_eq]; unfold configPrints; rw [hh]
    · rw [load_config_envAfter]; unfold configEnv; rw [hh]
    · intro c e
      rcases fs with ⟨c0, h0, e0⟩
      simp only at hh
      subst hh
      have he : configEnv ⟨c, some f, e⟩ env = configEnv ⟨c0, some f, e0⟩ env := rfl
      have hp : configPrints home ⟨c, some f, e⟩ = configPrints home ⟨c0, some f, e0⟩ := rfl
      unfold load_config
      rw [he, hp]
  · intro hh f he
    refine ⟨?_, ?_, ?_⟩
    · rw [load_config_prints_eq]; unfold configPrints; rw [hh, he]
    · rw [load_config_envAfter]; unfold configEnv; rw [hh, he]
    · intro c
      rcases fs with ⟨c0, h0, e0⟩
      simp only at hh he
      subst hh; subst he
      have h1 : configEnv ⟨c, Option.none, some f⟩ env = configEnv ⟨c0, Option.none, some f⟩ env := rfl
      have h2 : configPrints home ⟨c, Option.none, some f⟩ =
        configPrints home ⟨c0, Option.none, some f⟩ := rfl
      unfold load_config
      rw [h1, h2]
  · intro hh he
    constructor
    · rw [load_config_prints_eq]; unfold configPrints; rw [hh, he]
    · rw [load_config_envAfter]; unfold configEnv; rw [hh, he]
  · intro k v h
    rw [load_config_envAfter]
    exact configEnv_preserve fs env k v h

/-- Witness for C1 (amended) when the user-home file exists. -/
theorem load_config_search_order_witness :
    (FS.mk Option.none (some [("TUYA_DEVICE_ID", "home_id")]) Option.none).homeConfig =
      some [("TUYA_DEVICE_ID", "home_id")] ∧
    ((load_config "/home/user"
        (FS.mk Option.none (some [("TUYA_DEVICE_ID", "home_id")]) Option.none)
        (fun _ => Option.none)).prints =
      ["Loading config from: " ++ homeConfigPath "/home/user"] ∧
    (load_config "/home/user"
        (FS.mk Option.none (some [("TUYA_DEVICE_ID", "home_id")]) Option.none)
        (fun _ => Option.none)).envAfter =
      load_dotenv_file [("TUYA_DEVICE_ID", "home_id")] (fun _ => Option.none) ∧
    ∀ c e, load_config "/home/user" ⟨c, some [("TUYA_DEVICE_ID", "home_id")], e⟩
        (fun _ => Option.none) =
      load_config "/home/user"
        (FS.mk Option.none (some [("TUYA_DEVICE_ID", "home_id")]) Option.none)
        (fun _ => Option.none)) :=
  ⟨rfl,
    (load_config_search_order "/home/user"
      (FS.mk Option.none (some [("TUYA_DEVICE_ID", "home_id")]) Option.none)
      (fun _ => Option.none)).1 [("TUYA_DEVICE_ID", "home_id")] rfl⟩

/-- Counterexample to claim C1 as stated: with a current-directory `.env`
and a user-home file both present, the code loads the user-home file,
while the claimed search order (current directory first) would load the
current-directory file. -/
theorem load_config_search_order_cex :
    (load_config "/home/user"
        ⟨some [("TUYA_DEVICE_ID", "cwd_id")], some [("TUYA_DEVICE_ID", "home_id")],
          Option.none⟩ (fun _ => Option.none)).config =
      Except.ok ⟨some "home_id", Option.none, Option.none, PyFloat.finite false 33 1 0⟩ ∧
    (load_config_claimed "/home/user"
        ⟨some [("TUYA_DEVICE_ID", "cwd_id")], some [("TUYA_DEVICE_ID", "home_id")],
          Option.none⟩ (fun _ => Option.none)).config =
      Except.ok ⟨some "cwd_id", Option.none, Option.none, PyFloat.finite false 33 1 0⟩ ∧
    (Config.mk (some "home_id") Option.none Option.none (PyFloat.finite false 33 1 0)) ≠
      (Config.mk (some "cwd_id") Option.none Option.none (PyFloat.finite false 33 1 0)) :=
  ⟨rfl, rfl, by decide⟩

/-- Claim C2 (amended): when the user-home file (the highest-priority
search location) exists, the lower-priority system-wide file and the
current-directory fallback are never consulted, and for each key the
file's value is used exactly when the ambient environment does not
already set it — an ambient environment variable of the same name takes
precedence over the file's value. -/
theorem load_config_home_priority (home : String) (env : Env) (hf : EnvFile)
    (c1 c2 e1 e2 : Option EnvFile) :
    load_config home ⟨c1, some hf, e1⟩ env = load_config home ⟨c2, some hf, e2⟩ env ∧
    (∀ k v, env k = some v →
      (load_config home ⟨c1, some hf, e1⟩ env).envAfter k = some v) ∧
    (∀ k, env k = Option.none →
      (load_config home ⟨c1, some hf, e1⟩ env).envAfter k = fileEnv hf k) := by
  refine ⟨rfl, ?_, ?_⟩
  · intro k v h
    rw [load_config_envAfter]
    exact configEnv_preserve _ env k v h
  · intro k h
    rw [load_config_envAfter]
    unfold configEnv load_dotenv_file
    simp [h]

/-- Witness for C2 (amended): ambient value wins, file value fills gaps. -/
theorem load_config_home_priority_witness :
    ((fun k => if k = "TUYA_DEVICE_ID" then some "env_id" else Option.none :
        Env) "TUYA_DEVICE_ID" = some "env_id") ∧
    (load_config "/home/user"
        ⟨Option.none, some [("TUYA_DEVICE_ID", "file_id")], Option.none⟩
        (fun k => if k = "TUYA_DEVICE_ID" then some "env_id" else Option.none)).envAfter
      "TUYA_DEVICE_ID" = some "env_id" :=
  ⟨rfl,
    (load_config_home_priority "/home/user"
      (fun k => if k = "TUYA_DEVICE_ID" then some "env_id" else Option.none)
      [("TUYA_DEVICE_ID", "file_id")] Option.none Option.none Option.none
      Option.none).2.1 "TUYA_DEVICE_ID" "env_id" rfl⟩

/-- Counterexample to claim C2 as stated: a file in the highest-priority
location sets TUYA_DEVICE_ID to "file_id", but an ambient environment
variable set to "env_id" wins (`load_dotenv` defaults to
`override=False`), so the loaded value does not come from the file. -/
theorem load_config_home_priority_cex :
    (load_config "/home/user"
        ⟨Option.none, some [("TUYA_DEVICE_ID", "file_id")], Option.none⟩
        (fun k => if k = "TUYA_DEVICE_ID" then some "env_id" else Option.none)).config =
      Except.ok ⟨some "env_id", Option.none, Option.none, PyFloat.finite false 33 1 0⟩ ∧
    (some "env_id" : Option String) ≠ some "file_id" :=
  ⟨rfl, by decide⟩

/-- The `ValueError` from `float(os.getenv("TUYA_VERSION", "3.3"))`
propagates out of `load_config`. -/
theorem load_config_error_of_badversion (home : String) (fs : FS) (env : Env)
    (s : String) (hv : env "TUYA_VERSION" = some s)
    (hbad : pyFloatOfString s = Option.none) :
    (load_config home fs env).config = Except.error (floatErrorMsg s) := by
  have h2 := configEnv_preserve fs env _ _ hv
  unfold load_config
  simp only [h2, Option.getD]
  simp [hbad]

/-- Claim C9: when the environment sets TUYA_VERSION to a string that
`float()` rejects, `load_config` raises an unhandled conversion error, so
any device command (on/off/status) terminates with the uncaught exception
before the missing-credentials check can run (and before any device
construction). -/
theorem bad_version_uncaught (args : Args) (home : String) (fs : FS) (env : Env)
    (dev : Nat → DeviceD) (sc : SetupCtx) (s : String)
    (hv : env "TUYA_VERSION" = some s) (hbad : pyFloatOfString s = Option.none)
    (hcmd : (∃ n, args.command = some (Command.on n)) ∨
      (∃ n, args.command = some (Command.off n)) ∨
      args.command = some Command.status) :
    cli_main args home fs env dev sc = MainResult.uncaughtValueError (floatErrorMsg s) := by
  have hc := load_config_error_of_badversion home fs env s hv hbad
  rcases hcmd with ⟨n, h⟩ | ⟨n, h⟩ | h <;> simp [cli_main, h, hc]

/-- Witness for C9 with TUYA_VERSION = "abc" and the status command. -/
theorem bad_version_uncaught_witness :
    ((fun k => if k = "TUYA_VERSION" then some "abc" else Option.none : Env)
      "TUYA_VERSION" = some "abc") ∧
    pyFloatOfString "abc" = Option.none ∧
    ((Args.mk 10 3 (some Command.status)).command = some Command.status) ∧
    cli_main (Args.mk 10 3 (some Command.status)) "/home/user"
        ⟨Option.none, Option.none, Option.none⟩
        (fun k => if k = "TUYA_VERSION" then some "abc" else Option.none)
        (fun _ => ⟨DeviceCall.timeout, fun _ _ => DeviceCall.timeout⟩)
        ⟨"", "", "", "", [], Option.none, true, true, true, "/home/user"⟩ =
      MainResult.uncaughtValueError (floatErrorMsg "abc") :=
  ⟨rfl, rfl, rfl,
    bad_version_uncaught (Args.mk 10 3 (some Command.status)) "/home/user"
      ⟨Option.none, Option.none, Option.none⟩
      (fun k => if k = "TUYA_VERSION" then some "abc" else Option.none)
      (fun _ => ⟨DeviceCall.timeout, fun _ _ => DeviceCall.timeout⟩)
      ⟨"", "", "", "", [], Option.none, true, true, true, "/home/user"⟩
      "abc" rfl rfl (Or.inr (Or.inr rfl))⟩

/-- Claim C4: for every device command (on/off/status), when any of
device id, device ip or local key is `None` or empty after configuration
loading, the process prints the run-setup remediation hint and exits with
status 1 without constructing the device handle or touching the injected
device (the result is independent of `dev`). -/
theorem missing_creds_refusal (args : Args) (home : String) (fs : FS) (env : Env)
    (dev : Nat → DeviceD) (sc : SetupCtx) (cfg : Config)
    (hcmd : (∃ n, args.command = some (Command.on n)) ∨
      (∃ n, args.command = some (Command.off n)) ∨
      args.command = some Command.status)
    (hok : (load_config home fs env).config = Except.ok cfg)
    (hmiss : credsPresent cfg = false) :
    cli_main args home fs env dev sc =
      MainResult.missingCreds ((load_config home fs env).prints ++ [missingCredsMsg]) := by
  rcases hcmd with ⟨n, h⟩ | ⟨n, h⟩ | h <;> simp [cli_main, h, hok, hmiss]

/-- Witness for C4: empty environment, no files, `on 1`. -/
theorem missing_creds_refusal_witness :
    ((Args.mk 10 3 (some (Command.on 1))).command = some (Command.on 1)) ∧
    (load_config "/home/user" ⟨Option.none, Option.none, Option.none⟩
        (fun _ => Option.none)).config =
      Except.ok ⟨Option.none, Option.none, Option.none, PyFloat.finite false 33 1 0⟩ ∧
    credsPresent ⟨Option.none, Option.none, Option.none, PyFloat.finite false 33 1 0⟩ =
      false ∧
    cli_main (Args.mk 10 3 (some (Command.on 1))) "/home/user"
        ⟨Option.none, Option.none, Option.none⟩ (fun _ => Option.none)
        (fun _ => ⟨DeviceCall.timeout, fun _ _ => DeviceCall.timeout⟩)
        ⟨"", "", "", "", [], Option.none, true, true, true, "/home/user"⟩ =
      MainResult.missingCreds
        ((load_config "/home/user" ⟨Option.none, Option.none, Option.none⟩
          (fun _ => Option.none)).prints ++ [missingCredsMsg]) :=
  ⟨rfl, rfl, rfl,
    missing_creds_refusal (Args.mk 10 3 (some (Command.on 1))) "/home/user"
      ⟨Option.none, Option.none, Option.none⟩ (fun _ => Option.none)
      (fun _ => ⟨DeviceCall.timeout, fun _ _ => DeviceCall.timeout⟩)
      ⟨"", "", "", "", [], Option.none, true, true, true, "/home/user"⟩
      ⟨Option.none, Option.none, Option.none, PyFloat.finite false 33 1 0⟩
      (Or.inl ⟨1, rfl⟩) rfl rfl⟩

/-- Claim C5: for a successful status response whose dps payload has keys
"1","2","3","18","19","20", the printed switch map holds exactly the keys
"1","2","3" with their dps values, and the energy map sends voltage to
dps "20", current to dps "18" and power to dps "19". -/
theorem do_status_maps (data : Response) (f : String → Option PyVal)
    (sset : Bool → Int → DeviceCall Response)
    (hErr : data.Error = Option.none) (hdps : data.dps = some f)
    (h1 : (f "1").isSome) (h2 : (f "2").isSome) (h3 : (f "3").isSome)
    (h18 : (f "18").isSome) (h19 : (f "19").isSome) (h20 : (f "20").isSome) :
    ∃ sw en, do_status ⟨DeviceCall.ok data, sset⟩ = AttemptResult.ok (sw, en) ∧
      (∀ k, (sw k).isSome ↔ (k = "1" ∨ k = "2" ∨ k = "3")) ∧
      sw "1" = f "1" ∧ sw "2" = f "2" ∧ sw "3" = f "3" ∧
      en.voltage_V = f "20" ∧ en.current_mA = f "18" ∧ en.power_W = f "19" := by
  refine ⟨fun k => if k = "1" ∨ k = "2" ∨ k = "3" then f k else Option.none,
    ⟨f "20", f "18", f "19"⟩, ?_, ?_, ?_, ?_, ?_, rfl, rfl, rfl⟩
  · simp [do_status, hErr, hdps]
  · intro k
    by_cases hk : k = "1" ∨ k = "2" ∨ k = "3"
    · rcases hk with hk | hk | hk <;> subst hk <;> simp [h1, h2, h3]
    · simp [hk]
  · simp
  · simp
  · simp

/-- Witness for C5 with a concrete six-key dps payload. -/
theorem do_status_maps_witness :
    ((Response.mk Option.none Option.none
        (some (fun k =>
          if k = "1" ∨ k = "2" ∨ k = "3" ∨ k = "18" ∨ k = "19" ∨ k = "20"
          then some (PyVal.pyint 7) else Option.none))).Error = Option.none) ∧
    (((fun k =>
        if k = "1" ∨ k = "2" ∨ k = "3" ∨ k = "18" ∨ k = "19" ∨ k = "20"
        then some (PyVal.pyint 7) else Option.none) "1").isSome) ∧
    ∃ sw en,
      do_status
          ⟨DeviceCall.ok (Response.mk Option.none Option.none
            (some (fun k =>
              if k = "1" ∨ k = "2" ∨ k = "3" ∨ k = "18" ∨ k = "19" ∨ k = "20"
              then some (PyVal.pyint 7) else Option.none))),
            fun _ _ => DeviceCall.timeout⟩ =
        AttemptResult.ok (sw, en) ∧
      (∀ k, (sw k).isSome ↔ (k = "1" ∨ k = "2" ∨ k = "3")) ∧
      sw "1" = (fun k =>
          if k = "1" ∨ k = "2" ∨ k = "3" ∨ k = "18" ∨ k = "19" ∨ k = "20"
          then some (PyVal.pyint 7) else Option.none) "1" ∧
      sw "2" = (fun k =>
          if k = "1" ∨ k = "2" ∨ k = "3" ∨ k = "18" ∨ k = "19" ∨ k = "20"
          then some (PyVal.pyint 7) else Option.none) "2" ∧
      sw "3" = (fun k =>
          if k = "1" ∨ k = "2" ∨ k = "3" ∨ k = "18" ∨ k = "19" ∨ k = "20"
          then some (PyVal.pyint 7) else Option.none) "3" ∧
      en.voltage_V = (fun k =>
          if k = "1" ∨ k = "2" ∨ k = "3" ∨ k = "18" ∨ k = "19" ∨ k = "20"
          then some (PyVal.pyint 7) else Option.none) "20" ∧
      en.current_mA = (fun k =>
          if k = "1" ∨ k = "2" ∨ k = "3" ∨ k = "18" ∨ k = "19" ∨ k = "20"
          then some (PyVal.pyint 7) else Option.none) "18" ∧
      en.power_W = (fun k =>
          if k = "1" ∨ k = "2" ∨ k = "3" ∨ k = "18" ∨ k = "19" ∨ k = "20"
          then some (PyVal.pyint 7) else Option.none) "19" :=
  ⟨rfl, rfl,
    do_status_maps
      (Response.mk Option.none Option.none
        (some (fun k =>
          if k = "1" ∨ k = "2" ∨ k = "3" ∨ k = "18" ∨ k = "19" ∨ k = "20"
          then some (PyVal.pyint 7) else Option.none)))
      (fun k =>
        if k = "1" ∨ k = "2" ∨ k = "3" ∨ k = "18" ∨ k = "19" ∨ k = "20"
        then some (PyVal.pyint 7) else Option.none)
      (fun _ _ => DeviceCall.timeout) rfl rfl
      (by decide) (by decide) (by decide) (by decide) (by decide) (by decide)⟩

/-- Claim C6: `setup --system-wide` without write permission (whether the
directory creation or the file write is denied) prints a permission-denied
message and the full sudo-symlink remediation hint, exits with status 1,
and writes no file content (the outcome is never a `written` result). -/
theorem setup_system_wide_permission (sc : SetupCtx)
    (h : sc.canMkdirEtc = false ∨ sc.canWriteEtc = false) :
    ∃ pr, setup_config sc true = SetupResult.exit1 pr ∧
      (permDirMsg ∈ pr ∨ permWriteMsg etcConfigPath ∈ pr) ∧
      (∀ m ∈ suggest_sudo_prints sc.argvTail sc.whichResult, m ∈ pr) ∧
      ∀ p c pr2, setup_config sc true ≠ SetupResult.written p c pr2 := by
  cases hmk : sc.canMkdirEtc
  · refine ⟨setupHeaderPrints ++ [permDirMsg, sysWideMsg] ++
      suggest_sudo_prints sc.argvTail sc.whichResult, ?_, ?_, ?_, ?_⟩
    · simp [setup_config, hmk]
    · left; simp
    · intro m hm; simp [hm]
    · intro p c pr2; simp [setup_config, hmk]
  · have hw : sc.canWriteEtc = false := by
      rcases h with h | h
      · rw [h] at hmk; cases hmk
      · exact h
    refine ⟨setupHeaderPrints ++ [permWriteMsg etcConfigPath] ++
      suggest_sudo_prints sc.argvTail sc.whichResult, ?_, ?_, ?_, ?_⟩
    · simp [setup_config, hmk, hw]
    · right; simp
    · intro m hm; simp [hm]
    · intro p c pr2; simp [setup_config, hmk, hw]

/-- Witness for C6 with directory creation denied. -/
theorem setup_system_wide_permission_witness :
    ((SetupCtx.mk "id" "ip" "key" "" ["setup", "--system-wide"] Option.none
        false true true "/home/user").canMkdirEtc = false ∨
      (SetupCtx.mk "id" "ip" "key" "" ["setup", "--system-wide"] Option.none
        false true true "/home/user").canWriteEtc = false) ∧
    ∃ pr,
      setup_config
          (SetupCtx.mk "id" "ip" "key" "" ["setup", "--system-wide"] Option.none
            false true true "/home/user") true =
        SetupResult.exit1 pr ∧
      (permDirMsg ∈ pr ∨ permWriteMsg etcConfigPath ∈ pr) ∧
      (∀ m ∈ suggest_sudo_prints ["setup", "--system-wide"] Option.none, m ∈ pr) ∧
      ∀ p c pr2,
        setup_config
            (SetupCtx.mk "id" "ip" "key" "" ["setup", "--system-wide"] Option.none
              false true true "/home/user") true ≠
          SetupResult.written p c pr2 :=
  ⟨Or.inl rfl,
    setup_system_wide_permission
      (SetupCtx.mk "id" "ip" "key" "" ["setup", "--system-wide"] Option.none
        false true true "/home/user") (Or.inl rfl)⟩

/-- Claim C8: the plug integer of `on`/`off` undergoes no range
validation anywhere (any integer, e.g. 0, -5 or 99, is allowed by the
statement's universal quantification): `do_on`/`do_off` consult the
device's `set_status` only at exactly (True, num) resp. (False, num),
confirm with the unchanged number, and `main` passes the parsed integer
through to `do_on` untouched. -/
theorem plug_index_unvalidated (n : Int) (d d2 : DeviceD)
    (hon : d.set_status true n = d2.set_status true n)
    (hoff : d.set_status false n = d2.set_status false n) :
    do_on d n = do_on d2 n ∧ do_off d n = do_off d2 n ∧
    (∀ r, d.set_status true n = DeviceCall.ok r → r.Error = Option.none →
      do_on d n = AttemptResult.ok (plugOnMsg n)) ∧
    (∀ r, d.set_status false n = DeviceCall.ok r → r.Error = Option.none →
      do_off d n = AttemptResult.ok (plugOffMsg n)) ∧
    (∀ (args : Args) (home : String) (fs : FS) (env : Env) (dev : Nat → DeviceD)
        (sc : SetupCtx) (cfg : Config),
      args.command = some (Command.on n) →
      (load_config home fs env).config = Except.ok cfg → credsPresent cfg = true →
      cli_main args home fs env dev sc =
        MainResult.deviceRun
          ⟨cfg.DEVICE_ID, cfg.DEVICE_IP, cfg.LOCAL_KEY, args.timeout, cfg.VERSION⟩
          (run_with_retry (fun i => (do_on (dev i) n).mapOk CommandOutput.message)
            args.retries 1)) := by
  refine ⟨?_, ?_, ?_, ?_, ?_⟩
  · unfold do_on; rw [hon]
  · unfold do_off; rw [hoff]
  · intro r hr he; simp [do_on, hr, he]
  · intro r hr he; simp [do_off, hr, he]
  · intro args home fs env dev sc cfg hc hok hcred
    simp [cli_main, hc, hok, hcred]

/-- Witness for C8 at the out-of-range plug number -5. -/
theorem plug_index_unvalidated_witness :
    ((DeviceD.mk DeviceCall.timeout
        (fun _ _ => DeviceCall.ok (Response.mk Option.none Option.none Option.none))).set_status
        true (-5) =
      (DeviceD.mk DeviceCall.timeout
        (fun _ _ => DeviceCall.ok (Response.mk Option.none Option.none Option.none))).set_status
        true (-5)) ∧
    (do_on (DeviceD.mk DeviceCall.timeout
        (fun _ _ => DeviceCall.ok (Response.mk Option.none Option.none Option.none))) (-5) =
      do_on (DeviceD.mk DeviceCall.timeout
        (fun _ _ => DeviceCall.ok (Response.mk Option.none Option.none Option.none))) (-5) ∧
    do_off (DeviceD.mk DeviceCall.timeout
        (fun _ _ => DeviceCall.ok (Response.mk Option.none Option.none Option.none))) (-5) =
      do_off (DeviceD.mk DeviceCall.timeout
        (fun _ _ => DeviceCall.ok (Response.mk Option.none Option.none Option.none))) (-5) ∧
    (∀ r, (DeviceD.mk DeviceCall.timeout
        (fun _ _ => DeviceCall.ok (Response.mk Option.none Option.none Option.none))).set_status
          true (-5) = DeviceCall.ok r →
      r.Error = Option.none →
      do_on (DeviceD.mk DeviceCall.timeout
          (fun _ _ => DeviceCall.ok (Response.mk Option.none Option.none Option.none))) (-5) =
        AttemptResult.ok (plugOnMsg (-5))) ∧
    (∀ r, (DeviceD.mk DeviceCall.timeout
        (fun _ _ => DeviceCall.ok (Response.mk Option.none Option.none Option.none))).set_status
          false (-5) = DeviceCall.ok r →
      r.Error = Option.none →
      do_off (DeviceD.mk DeviceCall.timeout
          (fun _ _ => DeviceCall.ok (Response.mk Option.none Option.none Option.none))) (-5) =
        AttemptResult.ok (plugOffMsg (-5))) ∧
    (∀ (args : Args) (home : String) (fs : FS) (env : Env) (dev : Nat → DeviceD)
        (sc : SetupCtx) (cfg : Config),
      args.command = some (Command.on (-5)) →
      (load_config home fs env).config = Except.ok cfg → credsPresent cfg = true →
      cli_main args home fs env dev sc =
        MainResult.deviceRun
          ⟨cfg.DEVICE_ID, cfg.DEVICE_IP, cfg.LOCAL_KEY, args.timeout, cfg.VERSION⟩
          (run_with_retry (fun i => (do_on (dev i) (-5)).mapOk CommandOutput.message)
            args.retries 1))) :=
  ⟨rfl,
    plug_index_unvalidated (-5)
      (DeviceD.mk DeviceCall.timeout
        (fun _ _ => DeviceCall.ok (Response.mk Option.none Option.none Option.none)))
      (DeviceD.mk DeviceCall.timeout
        (fun _ _ => DeviceCall.ok (Response.mk Option.none Option.none Option.none)))
      rfl rfl⟩
